import Mathlib

/-!
Shallow embedding of the worklog-to-payment reconciliation engine found in
the repository (backend/app/worklog/router.py, with the data model taken
from the alembic migration that creates the freelancer, worklog and payment
tables).

Modelling conventions:
* SQL rows become Lean structures; nullable columns become Option fields;
  the polymorphic worklog table (type = "worklog" | "time_entry") keeps its
  string tag exactly as in the code.
* Float amounts and hours are modelled as exact rationals; the two-decimal
  rounding round(x, 2) is modelled by rounding x*100 to the nearest integer.
  No claim depends on the tie-breaking direction of the rounding.
* Dates are modelled as integers (day numbers), comparisons are as in the
  code.
* The session is a Store value; mutating an ORM object and committing
  becomes a functional update of the corresponding row(s).  Each endpoint is
  a function from the store (plus its parameters) to the resulting store and
  an Except value mirroring the HTTPException raised, if any.  An error is
  returned with the store as it was at the moment the code raises; in every
  such spot the code has not yet mutated the session.
* Python truthiness is translated faithfully: the code guards
  "if e.hours:" and "if wl.freelancer_id:", so an hours value of 0 is
  skipped (same sum) and a freelancer id of 0 is treated as absent.
-/

/-- A row of the freelancer table (fields used by the router). -/
structure Freelancer where
  id : Nat
  hourly_rate : ℚ
deriving DecidableEq

/-- A row of the polymorphic worklog table: type is "worklog" for tasks and
"time_entry" for time entries, exactly as the code tags them. -/
structure WorkLog where
  id : Nat
  type : String
  parent_id : Option Nat
  freelancer_id : Option Nat
  hours : Option ℚ
  status : Option String
  payment_id : Option Nat
  created_at : Int
deriving DecidableEq

/-- A row of the payment table. -/
structure Payment where
  id : Nat
  status : String
  total_amount : ℚ
  date_range_start : Int
  date_range_end : Int
deriving DecidableEq

/-- The database state visible to one request. -/
structure Store where
  freelancers : List Freelancer
  worklogs : List WorkLog
  payments : List Payment
deriving DecidableEq

/-- The PaymentCreate request payload. -/
structure PaymentCreate where
  date_range_start : Int
  date_range_end : Int
  excluded_wl_ids : List Nat
  excluded_freelancer_ids : List Nat
deriving DecidableEq

/-- round(x, 2): round to two decimal places (modelled as round-half-up on
exact rationals; no claim depends on the tie-breaking direction). -/
def round2 (q : ℚ) : ℚ := ((⌊q * 100 + 1/2⌋ : ℤ) : ℚ) / 100

/-- fr = None; if wl.freelancer_id: fr = session.get(Freelancer, wl.freelancer_id).
Python truthiness makes a freelancer id of 0 behave like None. -/
def getFr (s : Store) (fid : Option Nat) : Option Freelancer :=
  match fid with
  | none => none
  | some f => if f = 0 then none else s.freelancers.find? (fun fr => fr.id == f)

/-- rt = fr.hourly_rate if fr else 0.0 -/
def frRate (fr : Option Freelancer) : ℚ :=
  match fr with
  | some f => f.hourly_rate
  | none => 0

/-- session.get(Payment, pmt_id) -/
def paymentById (s : Store) (pid : Nat) : Option Payment :=
  s.payments.find? (fun p => p.id == pid)

/-- session.get(WorkLog, wl_id) -/
def worklogById (s : Store) (wid : Nat) : Option WorkLog :=
  s.worklogs.find? (fun w => w.id == wid)

/-- select(WorkLog).where(type == "time_entry", parent_id == wl.id) -/
def entriesOf (s : Store) (wlId : Nat) : List WorkLog :=
  s.worklogs.filter (fun e => decide (e.type = "time_entry" ∧ e.parent_id = some wlId))

/-- select(WorkLog).where(type == "worklog", payment_id == pmt.id) -/
def linkedTasks (s : Store) (pid : Nat) : List WorkLog :=
  s.worklogs.filter (fun w => decide (w.type = "worklog" ∧ w.payment_id = some pid))

/-- Aggregation loop as it appears in the worklog list endpoint
(t_hrs accumulation with the "if e.hours:" truthiness guard, then
amt = t_hrs * rt). -/
def agg_worklog_list (entries : List WorkLog) (fr : Option Freelancer) : ℚ × ℚ :=
  let t_hrs := entries.foldl
    (fun acc e => match e.hours with
      | some h => if h ≠ 0 then acc + h else acc
      | none => acc) 0
  let rt := frRate fr
  (t_hrs, t_hrs * rt)

/-- Aggregation loop as it appears in the worklog detail endpoint. -/
def agg_worklog_detail (entries : List WorkLog) (fr : Option Freelancer) : ℚ × ℚ :=
  let t_hrs := entries.foldl
    (fun acc e => match e.hours with
      | some h => if h ≠ 0 then acc + h else acc
      | none => acc) 0
  let rt := frRate fr
  (t_hrs, t_hrs * rt)

/-- Aggregation loop as it appears in payment creation. -/
def agg_payment_create (entries : List WorkLog) (fr : Option Freelancer) : ℚ × ℚ :=
  let t_hrs := entries.foldl
    (fun acc e => match e.hours with
      | some h => if h ≠ 0 then acc + h else acc
      | none => acc) 0
  let rt := frRate fr
  (t_hrs, t_hrs * rt)

/-- Aggregation loop as it appears in the payment detail endpoint. -/
def agg_payment_detail (entries : List WorkLog) (fr : Option Freelancer) : ℚ × ℚ :=
  let t_hrs := entries.foldl
    (fun acc e => match e.hours with
      | some h => if h ≠ 0 then acc + h else acc
      | none => acc) 0
  let rt := frRate fr
  (t_hrs, t_hrs * rt)

/-- Aggregation loop as it appears in payment confirmation. -/
def agg_payment_confirm (entries : List WorkLog) (fr : Option Freelancer) : ℚ × ℚ :=
  let t_hrs := entries.foldl
    (fun acc e => match e.hours with
      | some h => if h ≠ 0 then acc + h else acc
      | none => acc) 0
  let rt := frRate fr
  (t_hrs, t_hrs * rt)

/-- Aggregation loop as it appears in the exclude-worklog recompute. -/
def agg_exclude_recompute (entries : List WorkLog) (fr : Option Freelancer) : ℚ × ℚ :=
  let t_hrs := entries.foldl
    (fun acc e => match e.hours with
      | some h => if h ≠ 0 then acc + h else acc
      | none => acc) 0
  let rt := frRate fr
  (t_hrs, t_hrs * rt)

/-- The specification-level earned amount of a task in a store: sum of the
hours of its time entries (missing hours read as 0) times the looked-up
freelancer rate (0 when absent). -/
def earnedAmt (s : Store) (wl : WorkLog) : ℚ :=
  ((entriesOf s wl.id).map (fun e => e.hours.getD 0)).sum * frRate (getFr s wl.freelancer_id)

/-- select(WorkLog).where(type == "worklog", status == "pending") -/
def pendingWorklogs (s : Store) : List WorkLog :=
  s.worklogs.filter (fun wl => decide (wl.type = "worklog" ∧ wl.status = some "pending"))

/-- wl.freelancer_id in payload.excluded_freelancer_ids: a null freelancer id
is never a member of a list of ids. -/
def optElem (fid : Option Nat) (l : List Nat) : Bool :=
  match fid with
  | none => false
  | some f => l.contains f

/-- The eligibility filter body of create_payment: skip when created_at is
before range start, after range end, the id is excluded, or the freelancer
id is excluded. -/
def isEligible (p : PaymentCreate) (wl : WorkLog) : Bool :=
  !decide (wl.created_at < p.date_range_start) &&
  !decide (wl.created_at > p.date_range_end) &&
  !p.excluded_wl_ids.contains wl.id &&
  !optElem wl.freelancer_id p.excluded_freelancer_ids

/-- The eligible list built by create_payment: the pending worklogs that
survive the filter, in query order. -/
def eligibleFor (s : Store) (p : PaymentCreate) : List WorkLog :=
  (pendingWorklogs s).filter (isEligible p)

/-- A worklog row is linked by create_payment exactly when it was returned
by the pending query and passed the eligibility filter. -/
def createLinkPred (p : PaymentCreate) (wl : WorkLog) : Bool :=
  decide (wl.type = "worklog" ∧ wl.status = some "pending") && isEligible p wl

inductive CreateErr
  | badRange
  | noEligible
deriving DecidableEq

inductive ExclErr
  | paymentNotFound
  | immutablePayment
  | worklogNotFound
deriving DecidableEq

inductive ConfErr
  | notFound
  | alreadyConfirmed
deriving DecidableEq

/-- create_payment: validates the range, selects eligible pending worklogs,
sums their amounts, persists a draft payment with the rounded total (pid is
the fresh id the database sequence hands out), and links every eligible
worklog to it.  Linking mutates exactly the rows returned by the pending
query that passed the filter. -/
def createPayment (s : Store) (p : PaymentCreate) (pid : Nat) :
    Store × Except CreateErr Payment :=
  if p.date_range_end < p.date_range_start then
    (s, .error .badRange)
  else
    let eligible := eligibleFor s p
    if eligible.isEmpty then
      (s, .error .noEligible)
    else
      let ttl := eligible.foldl
        (fun acc wl =>
          acc + (agg_payment_create (entriesOf s wl.id) (getFr s wl.freelancer_id)).2) 0
      let pmt : Payment :=
        { id := pid, status := "draft", total_amount := round2 ttl,
          date_range_start := p.date_range_start, date_range_end := p.date_range_end }
      let s' : Store :=
        { s with
          payments := s.payments ++ [pmt],
          worklogs := s.worklogs.map (fun wl =>
            if createLinkPred p wl then { wl with payment_id := some pid } else wl) }
      (s', .ok pmt)

/-- exclude_worklog_from_payment: 404 when the payment is missing, 400 when
it is confirmed, 404 when the worklog is missing, is not task-kind, or is
not linked to this payment; otherwise clear the worklog's payment reference,
recompute the total from scratch over the remaining linked worklogs and
store the rounded result.  The returned rational is the new_total of the
response. -/
def excludeWorklog (s : Store) (pmtId wlId : Nat) :
    Store × Except ExclErr ℚ :=
  match paymentById s pmtId with
  | none => (s, .error .paymentNotFound)
  | some pmt =>
    if pmt.status = "confirmed" then
      (s, .error .immutablePayment)
    else
      match worklogById s wlId with
      | none => (s, .error .worklogNotFound)
      | some wl =>
        if wl.type ≠ "worklog" ∨ wl.payment_id ≠ some pmtId then
          (s, .error .worklogNotFound)
        else
          let s1 : Store :=
            { s with worklogs := s.worklogs.map (fun w =>
                if w.id = wlId then { w with payment_id := none } else w) }
          let remaining := linkedTasks s1 pmt.id
          let ttl := remaining.foldl
            (fun acc r =>
              acc + (agg_exclude_recompute (entriesOf s1 r.id) (getFr s1 r.freelancer_id)).2) 0
          let s2 : Store :=
            { s1 with payments := s1.payments.map (fun q =>
                if q.id = pmtId then { q with total_amount := round2 ttl } else q) }
          (s2, .ok (round2 ttl))

/-- confirm_payment: 404 when missing, 400 when already confirmed; otherwise
set the payment status to confirmed and mark every linked task-kind worklog
paid. -/
def confirmPayment (s : Store) (pmtId : Nat) :
    Store × Except ConfErr Unit :=
  match paymentById s pmtId with
  | none => (s, .error .notFound)
  | some pmt =>
    if pmt.status = "confirmed" then
      (s, .error .alreadyConfirmed)
    else
      let s1 : Store :=
        { s with payments := s.payments.map (fun q =>
            if q.id = pmtId then { q with status := "confirmed" } else q) }
      let s2 : Store :=
        { s1 with worklogs := s1.worklogs.map (fun w =>
            if decide (w.type = "worklog" ∧ w.payment_id = some pmt.id)
            then { w with status := some "paid" } else w) }
      (s2, .ok ())

/-- The database state committed by the first session.commit() inside
confirm_payment (router.py line 400): the payment status is already
confirmed, but none of the linked worklogs has been marked paid yet.  The
code then commits once per linked worklog.  Returns none when the endpoint
errors before that commit. -/
def confirmFirstCommit (s : Store) (pmtId : Nat) : Option Store :=
  match paymentById s pmtId with
  | none => none
  | some pmt =>
    if pmt.status = "confirmed" then none
    else
      some { s with payments := s.payments.map (fun q =>
          if q.id = pmtId then { q with status := "confirmed" } else q) }

/-- The database state committed by the first session.commit() inside
create_payment (router.py line 270): the draft payment row with its total is
durably persisted, while no worklog has been linked to it yet; the links are
committed only by the second commit at line 276. -/
def createFirstCommit (s : Store) (p : PaymentCreate) (pid : Nat) : Option Store :=
  if p.date_range_end < p.date_range_start then none
  else
    let eligible := eligibleFor s p
    if eligible.isEmpty then none
    else
      let ttl := eligible.foldl
        (fun acc wl =>
          acc + (agg_payment_create (entriesOf s wl.id) (getFr s wl.freelancer_id)).2) 0
      let pmt : Payment :=
        { id := pid, status := "draft", total_amount := round2 ttl,
          date_range_start := p.date_range_start, date_range_end := p.date_range_end }
      some { s with payments := s.payments ++ [pmt] }

/-! ### Instances and helper lemmas -/

deriving instance DecidableEq for Except

lemma hoursFold (l : List WorkLog) (a : ℚ) :
    l.foldl (fun acc e => match e.hours with
      | some h => if h ≠ 0 then acc + h else acc
      | none => acc) a = a + (l.map (fun e => e.hours.getD 0)).sum := by
  induction l generalizing a with
  | nil => simp
  | cons e t ih =>
    rw [List.foldl_cons, List.map_cons, List.sum_cons]
    cases he : e.hours with
    | none =>
      simp only [he, Option.getD_none, zero_add]
      exact ih a
    | some h =>
      simp only [he, Option.getD_some]
      by_cases h0 : h = 0
      · rw [if_neg (not_not_intro h0), ih, h0, zero_add]
      · rw [if_pos h0, ih, add_assoc]

lemma addFold {α : Type} (f : α → ℚ) (l : List α) (a : ℚ) :
    l.foldl (fun acc x => acc + f x) a = a + (l.map f).sum := by
  induction l generalizing a with
  | nil => simp
  | cons x t ih => simp [List.foldl_cons, ih, add_assoc]

lemma agg_fst (entries : List WorkLog) (fr : Option Freelancer) :
    (agg_worklog_detail entries fr).1 = (entries.map (fun e => e.hours.getD 0)).sum := by
  simp only [agg_worklog_detail]
  rw [hoursFold, zero_add]

lemma agg_snd (entries : List WorkLog) (fr : Option Freelancer) :
    (agg_worklog_detail entries fr).2
      = (entries.map (fun e => e.hours.getD 0)).sum * frRate fr := by
  simp only [agg_worklog_detail]
  rw [hoursFold, zero_add]

lemma agg_create_earned (s : Store) (wl : WorkLog) :
    (agg_payment_create (entriesOf s wl.id) (getFr s wl.freelancer_id)).2 = earnedAmt s wl :=
  agg_snd (entriesOf s wl.id) (getFr s wl.freelancer_id)

lemma agg_exclude_earned (s : Store) (wl : WorkLog) :
    (agg_exclude_recompute (entriesOf s wl.id) (getFr s wl.freelancer_id)).2 = earnedAmt s wl :=
  agg_snd (entriesOf s wl.id) (getFr s wl.freelancer_id)

lemma filter_map_congr {α β : Type} (f : α → β) (p : β → Bool) (q : α → Bool)
    (l : List α) (h : ∀ x ∈ l, p (f x) = q x) :
    (l.map f).filter p = (l.filter q).map f := by
  induction l with
  | nil => rfl
  | cons x t ih =>
    have hx := h x (List.mem_cons_self _ _)
    have ht := ih (fun y hy => h y (List.mem_cons_of_mem _ hy))
    by_cases hq : q x
    · simp [List.map_cons, List.filter_cons, hx, hq, ht]
    · simp [List.map_cons, List.filter_cons, hx, hq, ht]

lemma find?_map_congr {α β : Type} (f : α → β) (p : β → Bool) (q : α → Bool)
    (l : List α) (h : ∀ x ∈ l, p (f x) = q x) :
    (l.map f).find? p = (l.find? q).map f := by
  induction l with
  | nil => rfl
  | cons x t ih =>
    have hx := h x (List.mem_cons_self _ _)
    have ht := ih (fun y hy => h y (List.mem_cons_of_mem _ hy))
    by_cases hq : q x
    · simp [List.map_cons, List.find?_cons, hx, hq]
    · simp [List.map_cons, List.find?_cons, hx, hq, ht]

lemma entriesOf_map (s : Store) (fl : List Freelancer) (P : List Payment)
    (f : WorkLog → WorkLog)
    (hf : ∀ e, (f e).type = e.type ∧ (f e).parent_id = e.parent_id) (i : Nat) :
    entriesOf ⟨fl, s.worklogs.map f, P⟩ i = (entriesOf s i).map f := by
  unfold entriesOf
  exact filter_map_congr f _ _ _ (fun e _ => by simp [(hf e).1, (hf e).2])

lemma earnedAmt_map (s : Store) (P : List Payment) (f : WorkLog → WorkLog)
    (hf : ∀ e, (f e).type = e.type ∧ (f e).parent_id = e.parent_id ∧ (f e).hours = e.hours)
    (w v : WorkLog) (hid : v.id = w.id) (hfr : v.freelancer_id = w.freelancer_id) :
    earnedAmt ⟨s.freelancers, s.worklogs.map f, P⟩ v = earnedAmt s w := by
  unfold earnedAmt
  rw [hid, hfr]
  rw [entriesOf_map s s.freelancers P f (fun e => ⟨(hf e).1, (hf e).2.1⟩) w.id]
  have hmap : ((entriesOf s w.id).map f).map (fun e => e.hours.getD 0)
      = (entriesOf s w.id).map (fun e => e.hours.getD 0) := by
    rw [List.map_map]
    exact List.map_congr_left (fun e _ => by simp [(hf e).2.2])
  rw [hmap]
  rfl

lemma paymentById_id {s : Store} {pid : Nat} {pmt : Payment}
    (h : paymentById s pid = some pmt) : pmt.id = pid := by
  have := List.find?_some h
  simpa using this

lemma paymentById_mem {s : Store} {pid : Nat} {pmt : Payment}
    (h : paymentById s pid = some pmt) : pmt ∈ s.payments :=
  List.mem_of_find?_eq_some h

lemma worklogById_id {s : Store} {wid : Nat} {wl : WorkLog}
    (h : worklogById s wid = some wl) : wl.id = wid := by
  have := List.find?_some h
  simpa using this

lemma eligible_filter (s : Store) (p : PaymentCreate) :
    eligibleFor s p = s.worklogs.filter (createLinkPred p) := by
  unfold eligibleFor pendingWorklogs createLinkPred
  rw [List.filter_filter]
  exact List.filter_congr (fun a _ => Bool.and_comm _ _)

lemma createPayment_ok (s : Store) (p : PaymentCreate) (pid : Nat)
    (h1 : ¬ p.date_range_end < p.date_range_start)
    (h2 : eligibleFor s p ≠ []) :
    createPayment s p pid =
      (⟨s.freelancers,
        s.worklogs.map (fun wl =>
          if createLinkPred p wl then { wl with payment_id := some pid } else wl),
        s.payments ++ [⟨pid, "draft", round2 ((eligibleFor s p).map (earnedAmt s)).sum,
          p.date_range_start, p.date_range_end⟩]⟩,
       Except.ok ⟨pid, "draft", round2 ((eligibleFor s p).map (earnedAmt s)).sum,
          p.date_range_start, p.date_range_end⟩) := by
  have hsum : (eligibleFor s p).foldl
      (fun acc wl => acc + (agg_payment_create (entriesOf s wl.id) (getFr s wl.freelancer_id)).2) 0
      = ((eligibleFor s p).map (earnedAmt s)).sum := by
    rw [addFold, zero_add]
    congr 1
    exact List.map_congr_left (fun wl _ => agg_create_earned s wl)
  simp only [createPayment]
  rw [if_neg h1, if_neg (by simpa using h2), hsum]

/-- The session state after the single-row update wl.payment_id = None inside
exclude_worklog_from_payment (primary-key lookup mutates the row with that id). -/
def clearedStore (s : Store) (wlId : Nat) : Store :=
  ⟨s.freelancers,
   s.worklogs.map (fun w => if w.id = wlId then { w with payment_id := none } else w),
   s.payments⟩

/-- The rounded from-scratch recomputed total stored by
exclude_worklog_from_payment after the unlink. -/
def excludeTotal (s : Store) (pmtId wlId : Nat) : ℚ :=
  round2 (((linkedTasks (clearedStore s wlId) pmtId).map (earnedAmt (clearedStore s wlId))).sum)

lemma excludeWorklog_ok (s : Store) (pmtId wlId : Nat) (pmt : Payment) (wl : WorkLog)
    (hp : paymentById s pmtId = some pmt)
    (hc : ¬ pmt.status = "confirmed")
    (hw : worklogById s wlId = some wl)
    (ht : wl.type = "worklog")
    (hl : wl.payment_id = some pmtId) :
    excludeWorklog s pmtId wlId =
      (⟨s.freelancers,
        (clearedStore s wlId).worklogs,
        s.payments.map (fun q =>
          if q.id = pmtId then { q with total_amount := excludeTotal s pmtId wlId } else q)⟩,
       Except.ok (excludeTotal s pmtId wlId)) := by
  have hid : pmt.id = pmtId := paymentById_id hp
  simp only [excludeWorklog, hp]
  rw [if_neg hc]
  simp only [hw]
  rw [if_neg (by simp [ht, hl])]
  have hsum : ∀ (s1 : Store) (j : Nat),
      (linkedTasks s1 j).foldl
        (fun acc r => acc + (agg_exclude_recompute (entriesOf s1 r.id) (getFr s1 r.freelancer_id)).2) 0
      = ((linkedTasks s1 j).map (earnedAmt s1)).sum := by
    intro s1 j
    rw [addFold, zero_add]
    congr 1
    exact List.map_congr_left (fun r _ => agg_exclude_earned s1 r)
  rw [hsum, hid]
  rfl

lemma confirmPayment_ok (s : Store) (pmtId : Nat) (pmt : Payment)
    (hp : paymentById s pmtId = some pmt) (hc : ¬ pmt.status = "confirmed") :
    confirmPayment s pmtId =
      (⟨s.freelancers,
        s.worklogs.map (fun w =>
          if decide (w.type = "worklog" ∧ w.payment_id = some pmtId)
          then { w with status := some "paid" } else w),
        s.payments.map (fun q => if q.id = pmtId then { q with status := "confirmed" } else q)⟩,
       Except.ok ()) := by
  have hid : pmt.id = pmtId := paymentById_id hp
  simp only [confirmPayment, hp]
  rw [if_neg hc, hid]

lemma contains_false_iff (l : List Nat) (a : Nat) : l.contains a = false ↔ a ∉ l := by
  rw [← Bool.not_eq_true, List.contains_iff_exists_mem_beq]
  simp

lemma optElem_false_iff (fid : Option Nat) (l : List Nat) :
    optElem fid l = false ↔ ∀ f, fid = some f → f ∉ l := by
  cases fid with
  | none => simp [optElem]
  | some f => simp [optElem]

/-! ### Claim theorems -/

/-- Claim C2: for every task aggregation input (any list of time entries and
an optional freelancer), every call site of the aggregation loop (list view,
detail view, payment creation, payment detail, confirm, exclude-recompute)
computes the same pair, totalHours is the sum of the entries' hours treating
a missing hours value as 0, and earnedAmount is totalHours times the
freelancer's hourly rate (0 when no freelancer is linked). -/
theorem C2_aggregation_uniform (entries : List WorkLog) (fr : Option Freelancer) :
    agg_worklog_list entries fr = agg_worklog_detail entries fr ∧
    agg_payment_create entries fr = agg_worklog_detail entries fr ∧
    agg_payment_detail entries fr = agg_worklog_detail entries fr ∧
    agg_payment_confirm entries fr = agg_worklog_detail entries fr ∧
    agg_exclude_recompute entries fr = agg_worklog_detail entries fr ∧
    (agg_worklog_detail entries fr).1 = (entries.map (fun e => e.hours.getD 0)).sum ∧
    (agg_worklog_detail entries fr).2 = (agg_worklog_detail entries fr).1 * frRate fr :=
  ⟨rfl, rfl, rfl, rfl, rfl, agg_fst entries fr, by rw [agg_snd, agg_fst]⟩

/-- Claim C3: a task is selected as eligible by payment creation iff it is a
task-kind row of the store with status pending, its creation date lies in
the inclusive requested range, its id is not excluded, and its freelancer id
(when present) is not excluded. -/
theorem C3_eligibility_characterization (s : Store) (p : PaymentCreate) (wl : WorkLog) :
    wl ∈ eligibleFor s p ↔
      wl ∈ s.worklogs ∧ wl.type = "worklog" ∧ wl.status = some "pending" ∧
      p.date_range_start ≤ wl.created_at ∧ wl.created_at ≤ p.date_range_end ∧
      wl.id ∉ p.excluded_wl_ids ∧
      (∀ f, wl.freelancer_id = some f → f ∉ p.excluded_freelancer_ids) := by
  unfold eligibleFor pendingWorklogs isEligible
  simp only [List.mem_filter, Bool.and_eq_true, decide_eq_true_eq, Bool.not_eq_true',
    decide_eq_false_iff_not, not_lt, contains_false_iff, optElem_false_iff]
  tauto

/-- Claim C4: creating a payment whose date_range_start is strictly greater
than date_range_end fails with the validation error for every store state,
before any selection, and leaves the store unchanged (no payment created). -/
theorem C4_bad_range_rejected (s : Store) (p : PaymentCreate) (pid : Nat)
    (h : p.date_range_end < p.date_range_start) :
    createPayment s p pid = (s, Except.error CreateErr.badRange) := by
  simp only [createPayment]
  rw [if_pos h]

/-- Claim C7: unlinking any task id from a confirmed payment fails with the
immutable-payment error and returns the store unchanged: the payment's
status, total and membership and every task's payment reference and status
are exactly as before. -/
theorem C7_unlink_confirmed_immutable (s : Store) (pmtId wlId : Nat) (pmt : Payment)
    (hp : paymentById s pmtId = some pmt) (hc : pmt.status = "confirmed") :
    excludeWorklog s pmtId wlId = (s, Except.error ExclErr.immutablePayment) := by
  simp only [excludeWorklog, hp]
  rw [if_pos hc]

/-- Claim C10: in unlink the confirmed-payment check runs before the worklog
lookup, so the error precedence is payment-not-found, then
immutable-payment (even for a task id that does not exist or is not linked),
then worklog-not-found-in-payment. -/
theorem C10_unlink_error_precedence (s : Store) (pmtId wlId : Nat) :
    (paymentById s pmtId = none →
      excludeWorklog s pmtId wlId = (s, Except.error ExclErr.paymentNotFound)) ∧
    (∀ pmt, paymentById s pmtId = some pmt → pmt.status = "confirmed" →
      excludeWorklog s pmtId wlId = (s, Except.error ExclErr.immutablePayment)) ∧
    (∀ pmt, paymentById s pmtId = some pmt → ¬ pmt.status = "confirmed" →
      worklogById s wlId = none →
      excludeWorklog s pmtId wlId = (s, Except.error ExclErr.worklogNotFound)) ∧
    (∀ pmt wl, paymentById s pmtId = some pmt → ¬ pmt.status = "confirmed" →
      worklogById s wlId = some wl →
      (¬ wl.type = "worklog" ∨ ¬ wl.payment_id = some pmtId) →
      excludeWorklog s pmtId wlId = (s, Except.error ExclErr.worklogNotFound)) := by
  refine ⟨?_, ?_, ?_, ?_⟩
  · intro hnone
    simp only [excludeWorklog, hnone]
  · intro pmt hp hc
    simp only [excludeWorklog, hp]
    rw [if_pos hc]
  · intro pmt hp hc hw
    simp only [excludeWorklog, hp]
    rw [if_neg hc]
    simp only [hw]
  · intro pmt wl hp hc hw hbad
    simp only [excludeWorklog, hp]
    rw [if_neg hc]
    simp only [hw]
    rw [if_pos hbad]

/-- Claim C8: Confirm is not idempotent: on a draft payment the first
Confirm succeeds, sets the payment status to confirmed and every linked
task-kind worklog to paid, and a second Confirm on the resulting state is
rejected with the already-confirmed error; Confirm on a missing payment
fails with the not-found error. -/
theorem C8_confirm_not_idempotent (s : Store) (pmtId : Nat) :
    (paymentById s pmtId = none →
      confirmPayment s pmtId = (s, Except.error ConfErr.notFound)) ∧
    (∀ pmt, paymentById s pmtId = some pmt → ¬ pmt.status = "confirmed" →
      (confirmPayment s pmtId).2 = Except.ok () ∧
      (∀ q ∈ (confirmPayment s pmtId).1.payments, q.id = pmtId → q.status = "confirmed") ∧
      (∀ w ∈ (confirmPayment s pmtId).1.worklogs,
        w.type = "worklog" → w.payment_id = some pmtId → w.status = some "paid") ∧
      (confirmPayment (confirmPayment s pmtId).1 pmtId).2
        = Except.error ConfErr.alreadyConfirmed) := by
  constructor
  · intro hnone
    simp only [confirmPayment, hnone]
  · intro pmt hp hc
    have hid : pmt.id = pmtId := paymentById_id hp
    rw [confirmPayment_ok s pmtId pmt hp hc]
    refine ⟨rfl, ?_, ?_, ?_⟩
    · intro q hq hqid
      rcases List.mem_map.mp hq with ⟨q0, hq0, rfl⟩
      by_cases h0 : q0.id = pmtId
      · simp [h0]
      · rw [if_neg h0] at hqid ⊢
        exact absurd hqid h0
    · intro w hw htw hpw
      rcases List.mem_map.mp hw with ⟨w0, hw0, rfl⟩
      by_cases h0 : (decide (w0.type = "worklog" ∧ w0.payment_id = some pmtId)) = true
      · rw [if_pos h0]
      · rw [if_neg h0] at htw hpw ⊢
        exact absurd (decide_eq_true ⟨htw, hpw⟩) h0
    · have hfind : paymentById
          ⟨s.freelancers,
           s.worklogs.map (fun w =>
             if decide (w.type = "worklog" ∧ w.payment_id = some pmtId)
             then { w with status := some "paid" } else w),
           s.payments.map (fun q => if q.id = pmtId then { q with status := "confirmed" } else q)⟩
          pmtId = some { pmt with status := "confirmed" } := by
        show (s.payments.map (fun q => if q.id = pmtId then { q with status := "confirmed" } else q)).find?
            (fun q => q.id == pmtId) = _
        rw [find?_map_congr _ _ (fun q => q.id == pmtId) s.payments
          (fun q _ => by by_cases hq : q.id = pmtId <;> simp [hq])]
        rw [show s.payments.find? (fun q => q.id == pmtId) = some pmt from hp]
        simp [hid]
      simp only [confirmPayment, hfind]
      simp

/-- Claim C5: when the eligible set is empty, payment creation fails with
the no-eligible-work error and persists nothing; the selection itself and
the recompute path accept emptiness: unlinking the only linked task of a
draft payment succeeds and stores a total of 0. -/
theorem C5_empty_selection_semantics :
    (∀ (s : Store) (p : PaymentCreate) (pid : Nat),
      ¬ p.date_range_end < p.date_range_start →
      eligibleFor s p = [] →
      createPayment s p pid = (s, Except.error CreateErr.noEligible)) ∧
    (∀ (s : Store) (pmtId wlId : Nat) (pmt : Payment) (wl : WorkLog),
      paymentById s pmtId = some pmt → ¬ pmt.status = "confirmed" →
      worklogById s wlId = some wl → wl.type = "worklog" → wl.payment_id = some pmtId →
      (∀ w ∈ s.worklogs, w.type = "worklog" → w.payment_id = some pmtId → w.id = wlId) →
      (excludeWorklog s pmtId wlId).2 = Except.ok 0) := by
  constructor
  · intro s p pid h1 h2
    simp only [createPayment]
    rw [if_neg h1, if_pos (by simp [h2])]
  · intro s pmtId wlId pmt wl hp hc hw ht hl honly
    rw [excludeWorklog_ok s pmtId wlId pmt wl hp hc hw ht hl]
    have hnil : linkedTasks (clearedStore s wlId) pmtId = [] := by
      rw [linkedTasks, List.filter_eq_nil_iff]
      intro a ha
      rcases List.mem_map.mp (by simpa [clearedStore] using ha) with ⟨w0, hw0, rfl⟩
      by_cases h0 : w0.id = wlId
      · simp [h0]
      · rw [if_neg h0]
        simp only [decide_eq_true_eq, not_and]
        intro htw hpw
        exact h0 (honly w0 hw0 htw hpw)
    show Except.ok (excludeTotal s pmtId wlId) = Except.ok 0
    rw [excludeTotal, hnil]
    norm_num [round2, Int.floor_eq_iff]

/-- Claim C6: unlinking a task that is linked to a draft payment succeeds,
clears that task's payment reference, and stores as the payment's total the
rounded from-scratch recomputed sum of earned amounts over the remaining
linked tasks (excludeTotal is by definition that recomputed sum). -/
theorem C6_unlink_clears_and_recomputes (s : Store) (pmtId wlId : Nat)
    (pmt : Payment) (wl : WorkLog)
    (hp : paymentById s pmtId = some pmt)
    (hc : ¬ pmt.status = "confirmed")
    (hw : worklogById s wlId = some wl)
    (ht : wl.type = "worklog")
    (hl : wl.payment_id = some pmtId) :
    (excludeWorklog s pmtId wlId).2 = Except.ok (excludeTotal s pmtId wlId) ∧
    (∀ w ∈ (excludeWorklog s pmtId wlId).1.worklogs, w.id = wlId → w.payment_id = none) ∧
    (∀ q ∈ (excludeWorklog s pmtId wlId).1.payments, q.id = pmtId →
      q.total_amount = excludeTotal s pmtId wlId) := by
  rw [excludeWorklog_ok s pmtId wlId pmt wl hp hc hw ht hl]
  refine ⟨rfl, ?_, ?_⟩
  · intro w hw2 hwid
    rcases List.mem_map.mp (by simpa [clearedStore] using hw2) with ⟨w0, hw0, rfl⟩
    by_cases h0 : w0.id = wlId
    · simp [h0]
    · rw [if_neg h0] at hwid ⊢
      exact absurd hwid h0
  · intro q hq hqid
    rcases List.mem_map.mp hq with ⟨q0, hq0, rfl⟩
    by_cases h0 : q0.id = pmtId
    · simp [h0]
    · rw [if_neg h0] at hqid ⊢
      exact absurd hqid h0

lemma createLinkPred_type {p : PaymentCreate} {w : WorkLog}
    (h : createLinkPred p w = true) : w.type = "worklog" := by
  unfold createLinkPred at h
  simp only [Bool.and_eq_true, decide_eq_true_eq] at h
  exact h.1.1

lemma createUpd_preserves (p : PaymentCreate) (pid : Nat) (e : WorkLog) :
    ((if createLinkPred p e then { e with payment_id := some pid } else e).type = e.type) ∧
    ((if createLinkPred p e then { e with payment_id := some pid } else e).parent_id = e.parent_id) ∧
    ((if createLinkPred p e then { e with payment_id := some pid } else e).hours = e.hours) ∧
    ((if createLinkPred p e then { e with payment_id := some pid } else e).id = e.id) ∧
    ((if createLinkPred p e then { e with payment_id := some pid } else e).freelancer_id
      = e.freelancer_id) := by
  by_cases hc : createLinkPred p e = true <;> simp [hc]

/-- Claim C1: after each membership-changing operation, the payment's
total_amount equals the two-decimal rounding of the from-scratch sum of
earned amounts over the tasks currently linked to it: on creation with a
fresh payment id, and after an unlink. -/
theorem C1_total_matches_membership :
    (∀ (s : Store) (p : PaymentCreate) (pid : Nat),
      ¬ p.date_range_end < p.date_range_start →
      eligibleFor s p ≠ [] →
      (∀ w ∈ s.worklogs, w.payment_id ≠ some pid) →
      (∀ q ∈ s.payments, q.id ≠ pid) →
      ∀ q ∈ (createPayment s p pid).1.payments, q.id = pid →
        q.total_amount
          = round2 (((linkedTasks (createPayment s p pid).1 pid).map
              (earnedAmt (createPayment s p pid).1)).sum)) ∧
    (∀ (s : Store) (pmtId wlId : Nat) (pmt : Payment) (wl : WorkLog),
      paymentById s pmtId = some pmt → ¬ pmt.status = "confirmed" →
      worklogById s wlId = some wl → wl.type = "worklog" → wl.payment_id = some pmtId →
      ∀ q ∈ (excludeWorklog s pmtId wlId).1.payments, q.id = pmtId →
        q.total_amount
          = round2 (((linkedTasks (excludeWorklog s pmtId wlId).1 pmtId).map
              (earnedAmt (excludeWorklog s pmtId wlId).1)).sum)) := by
  constructor
  · intro s p pid h1 h2 hfreshW hfreshP q hq hqid
    rw [createPayment_ok s p pid h1 h2] at hq ⊢
    have h3 : linkedTasks
        ⟨s.freelancers,
         s.worklogs.map (fun wl =>
           if createLinkPred p wl then { wl with payment_id := some pid } else wl),
         s.payments ++ [⟨pid, "draft", round2 ((eligibleFor s p).map (earnedAmt s)).sum,
           p.date_range_start, p.date_range_end⟩]⟩ pid
        = (s.worklogs.filter (createLinkPred p)).map (fun wl =>
            if createLinkPred p wl then { wl with payment_id := some pid } else wl) := by
      unfold linkedTasks
      apply filter_map_congr
      intro w hwmem
      by_cases hcw : createLinkPred p w = true
      · have htype := createLinkPred_type hcw
        simp [hcw, htype]
      · have hfw := hfreshW w hwmem
        rw [if_neg hcw]
        have hno : ¬(w.type = "worklog" ∧ w.payment_id = some pid) := fun hcon => hfw hcon.2
        simp [hno, Bool.eq_false_iff.mpr hcw]
    have h4 : ((s.worklogs.filter (createLinkPred p)).map (fun wl =>
          if createLinkPred p wl then { wl with payment_id := some pid } else wl)).map
          (earnedAmt ⟨s.freelancers,
            s.worklogs.map (fun wl =>
              if createLinkPred p wl then { wl with payment_id := some pid } else wl),
            s.payments ++ [⟨pid, "draft", round2 ((eligibleFor s p).map (earnedAmt s)).sum,
              p.date_range_start, p.date_range_end⟩]⟩)
        = (s.worklogs.filter (createLinkPred p)).map (earnedAmt s) := by
      rw [List.map_map]
      apply List.map_congr_left
      intro w _
      exact earnedAmt_map s _ _
        (fun e => ⟨(createUpd_preserves p pid e).1, (createUpd_preserves p pid e).2.1,
          (createUpd_preserves p pid e).2.2.1⟩)
        w _ (createUpd_preserves p pid w).2.2.2.1 (createUpd_preserves p pid w).2.2.2.2
    rcases List.mem_append.mp hq with hq0 | hq1
    · exact absurd hqid (hfreshP q hq0)
    · rw [List.mem_singleton.mp hq1]
      rw [h3, h4, ← eligible_filter]
  · intro s pmtId wlId pmt wl hp hc hw ht hl q hq hqid
    rw [excludeWorklog_ok s pmtId wlId pmt wl hp hc hw ht hl] at hq ⊢
    rcases List.mem_map.mp hq with ⟨q0, hq0, rfl⟩
    by_cases h0 : q0.id = pmtId
    · simp only [if_pos h0]
      rfl
    · rw [if_neg h0] at hqid ⊢
      exact absurd hqid h0

/-! ### Concrete fixtures for witnesses -/

def wFr : Freelancer := ⟨1, 10⟩

def wTaskA : WorkLog := ⟨1, "worklog", none, some 1, none, some "pending", none, 5⟩

def wEntA : WorkLog := ⟨10, "time_entry", some 1, none, some 1, none, none, 5⟩

def wTaskB : WorkLog := ⟨2, "worklog", none, some 1, none, some "pending", none, 5⟩

def wEntB : WorkLog := ⟨11, "time_entry", some 2, none, some 2, none, none, 5⟩

def wTaskC : WorkLog := ⟨3, "worklog", none, some 1, none, some "pending", none, 5⟩

def wEntC : WorkLog := ⟨12, "time_entry", some 3, none, some 3, none, none, 5⟩

def wStore0 : Store := ⟨[wFr], [wTaskA, wEntA, wTaskB, wEntB, wTaskC, wEntC], []⟩

def wPC : PaymentCreate := ⟨0, 10, [], []⟩

def wPCbad : PaymentCreate := ⟨10, 0, [], []⟩

def wTaskA1 : WorkLog := ⟨1, "worklog", none, some 1, none, some "pending", some 1, 5⟩

def wTaskB1 : WorkLog := ⟨2, "worklog", none, some 1, none, some "pending", some 1, 5⟩

def wTaskC1 : WorkLog := ⟨3, "worklog", none, some 1, none, some "pending", some 1, 5⟩

def wPay : Payment := ⟨1, "draft", 60, 0, 10⟩

def wStore1 : Store := ⟨[wFr], [wTaskA1, wEntA, wTaskB1, wEntB, wTaskC1, wEntC], [wPay]⟩

def wPayC : Payment := ⟨1, "confirmed", 60, 0, 10⟩

def wStoreC : Store := ⟨[wFr], [], [wPayC]⟩

def wPaySolo : Payment := ⟨1, "draft", 10, 0, 10⟩

def wStoreSolo : Store := ⟨[wFr], [wTaskA1, wEntA], [wPaySolo]⟩

def wStoreMid : Store := ⟨[wFr], [wTaskA1, wEntA, wTaskB1, wEntB, wTaskC1, wEntC], [wPayC]⟩

def wTaskA1paid : WorkLog := ⟨1, "worklog", none, some 1, none, some "paid", some 1, 5⟩

def wTaskB1paid : WorkLog := ⟨2, "worklog", none, some 1, none, some "paid", some 1, 5⟩

def wTaskC1paid : WorkLog := ⟨3, "worklog", none, some 1, none, some "paid", some 1, 5⟩

def wStoreDone : Store := ⟨[wFr], [wTaskA1paid, wEntA, wTaskB1paid, wEntB, wTaskC1paid, wEntC], [wPayC]⟩

def wStoreHalf : Store := ⟨[wFr], [wTaskA, wEntA, wTaskB, wEntB, wTaskC, wEntC], [wPay]⟩

/-- Claim C9 is refuted by the code: the lifecycle operations are not one
atomic transaction.  confirm_payment commits the payment status flip (line
400) before any linked task is marked paid (each task is then committed
separately in the loop), so the committed intermediate state wStoreMid has
payment 1 confirmed while its linked task 2 still has status pending; the
final state wStoreDone differs.  Likewise create_payment commits the
persisted payment (line 270) before any link is committed (line 276):
wStoreHalf holds the payment with its total while no worklog is linked. -/
theorem C9_operations_commit_intermediate_states :
    confirmFirstCommit wStore1 1 = some wStoreMid ∧
    paymentById wStoreMid 1 = some wPayC ∧
    worklogById wStoreMid 2 = some wTaskB1 ∧
    wTaskB1.status = some "pending" ∧
    wTaskB1.payment_id = some 1 ∧
    (confirmPayment wStore1 1).1 = wStoreDone ∧
    wStoreMid ≠ wStoreDone ∧
    createFirstCommit wStore0 wPC 1 = some wStoreHalf ∧
    paymentById wStoreHalf 1 = some wPay ∧
    linkedTasks wStoreHalf 1 = [] :=
  ⟨by decide, by decide, by decide, by decide, by decide, by decide, by decide,
   by norm_num [createFirstCommit, eligibleFor, pendingWorklogs, isEligible, optElem,
     agg_payment_create, entriesOf, getFr, frRate, round2, wStore0, wPC, wTaskA, wEntA,
     wTaskB, wEntB, wTaskC, wEntC, wFr, wStoreHalf, wPay, List.filter, List.foldl,
     List.find?],
   by decide, by decide⟩

/-! ### Witnesses -/

/-- Witness for C1: the invariant instantiated at a concrete creation and
its hypotheses discharged there. -/
theorem C1_total_matches_membership_witness :
    ((¬ (wPC.date_range_end < wPC.date_range_start)) ∧ eligibleFor wStore0 wPC ≠ [] ∧
     (∀ w ∈ wStore0.worklogs, w.payment_id ≠ some 7) ∧ (∀ q ∈ wStore0.payments, q.id ≠ 7)) ∧
    (∀ q ∈ (createPayment wStore0 wPC 7).1.payments, q.id = 7 →
      q.total_amount = round2 (((linkedTasks (createPayment wStore0 wPC 7).1 7).map
        (earnedAmt (createPayment wStore0 wPC 7).1)).sum)) :=
  ⟨⟨by decide, by decide, by decide, by decide⟩,
   C1_total_matches_membership.1 wStore0 wPC 7 (by decide) (by decide) (by decide) (by decide)⟩

/-- Witness for C4: a concrete inverted range is rejected with the store
unchanged. -/
theorem C4_bad_range_rejected_witness :
    wPCbad.date_range_end < wPCbad.date_range_start ∧
    createPayment wStore0 wPCbad 1 = (wStore0, Except.error CreateErr.badRange) :=
  ⟨by decide, C4_bad_range_rejected wStore0 wPCbad 1 (by decide)⟩

/-- Witness for C5: a concrete empty eligible set is rejected at creation,
and unlinking the only linked task of a draft payment succeeds with total 0. -/
theorem C5_empty_selection_semantics_witness :
    (eligibleFor wStoreC wPC = [] ∧
     createPayment wStoreC wPC 5 = (wStoreC, Except.error CreateErr.noEligible)) ∧
    (paymentById wStoreSolo 1 = some wPaySolo ∧
     (excludeWorklog wStoreSolo 1 1).2 = Except.ok 0) :=
  ⟨⟨by decide, C5_empty_selection_semantics.1 wStoreC wPC 5 (by decide) (by decide)⟩,
   ⟨by decide, C5_empty_selection_semantics.2 wStoreSolo 1 1 wPaySolo wTaskA1
     (by decide) (by decide) (by decide) (by decide) (by decide) (by decide)⟩⟩

set_option maxRecDepth 8000 in
/-- Witness for C6, including the concrete scenario of the claim: a payment
over tasks earning 10, 20 and 30 (total 60); unlinking the task earning 20
succeeds and the recomputed total is 40. -/
theorem C6_unlink_clears_and_recomputes_witness :
    (paymentById wStore1 1 = some wPay ∧ ¬ wPay.status = "confirmed" ∧
     worklogById wStore1 2 = some wTaskB1 ∧ wTaskB1.type = "worklog" ∧
     wTaskB1.payment_id = some 1) ∧
    (excludeWorklog wStore1 1 2).2 = Except.ok (excludeTotal wStore1 1 2) ∧
    earnedAmt wStore1 wTaskA1 = 10 ∧
    earnedAmt wStore1 wTaskB1 = 20 ∧
    earnedAmt wStore1 wTaskC1 = 30 ∧
    wPay.total_amount = 60 ∧
    (excludeWorklog wStore1 1 2).2 = Except.ok 40 :=
  ⟨⟨by decide, by decide, by decide, by decide, by decide⟩,
   (C6_unlink_clears_and_recomputes wStore1 1 2 wPay wTaskB1
     (by decide) (by decide) (by decide) (by decide) (by decide)).1,
   by
     have h1 : entriesOf wStore1 wTaskA1.id = [wEntA] := by decide
     have h2 : getFr wStore1 wTaskA1.freelancer_id = some wFr := by decide
     rw [earnedAmt, h1, h2]
     norm_num [wEntA, wFr, frRate],
   by
     have h1 : entriesOf wStore1 wTaskB1.id = [wEntB] := by decide
     have h2 : getFr wStore1 wTaskB1.freelancer_id = some wFr := by decide
     rw [earnedAmt, h1, h2]
     norm_num [wEntB, wFr, frRate],
   by
     have h1 : entriesOf wStore1 wTaskC1.id = [wEntC] := by decide
     have h2 : getFr wStore1 wTaskC1.freelancer_id = some wFr := by decide
     rw [earnedAmt, h1, h2]
     norm_num [wEntC, wFr, frRate],
   by decide,
   by
     norm_num [excludeWorklog, paymentById, worklogById, linkedTasks, agg_exclude_recompute,
       entriesOf, getFr, frRate, round2, wStore1, wTaskA1, wTaskB1, wTaskC1, wPay, wEntA,
       wEntB, wEntC, wFr, List.filter, List.foldl, List.find?]
     decide⟩

/-- Witness for C7: excluding a nonexistent task id from a concrete
confirmed payment fails with the immutable-payment error, store unchanged. -/
theorem C7_unlink_confirmed_immutable_witness :
    (paymentById wStoreC 1 = some wPayC ∧ wPayC.status = "confirmed") ∧
    excludeWorklog wStoreC 1 99 = (wStoreC, Except.error ExclErr.immutablePayment) :=
  ⟨⟨by decide, by decide⟩,
   C7_unlink_confirmed_immutable wStoreC 1 99 wPayC (by decide) (by decide)⟩

/-- Witness for C8: confirming a concrete draft payment once succeeds and a
second confirm is rejected; confirming a missing payment is not found. -/
theorem C8_confirm_not_idempotent_witness :
    (paymentById wStore1 1 = some wPay ∧ ¬ wPay.status = "confirmed") ∧
    ((confirmPayment wStore1 1).2 = Except.ok () ∧
     (∀ q ∈ (confirmPayment wStore1 1).1.payments, q.id = 1 → q.status = "confirmed") ∧
     (∀ w ∈ (confirmPayment wStore1 1).1.worklogs,
       w.type = "worklog" → w.payment_id = some 1 → w.status = some "paid") ∧
     (confirmPayment (confirmPayment wStore1 1).1 1).2 = Except.error ConfErr.alreadyConfirmed) ∧
    confirmPayment wStore0 99 = (wStore0, Except.error ConfErr.notFound) :=
  ⟨⟨by decide, by decide⟩,
   (C8_confirm_not_idempotent wStore1 1).2 wPay (by decide) (by decide),
   (C8_confirm_not_idempotent wStore0 99).1 (by decide)⟩

/-- Witness for C10: each precedence branch exercised at a concrete store;
in particular a confirmed payment with a nonexistent task id yields the
immutable-payment error, not not-found. -/
theorem C10_unlink_error_precedence_witness :
    (paymentById wStore0 1 = none ∧
     excludeWorklog wStore0 1 2 = (wStore0, Except.error ExclErr.paymentNotFound)) ∧
    excludeWorklog wStoreC 1 99 = (wStoreC, Except.error ExclErr.immutablePayment) ∧
    (worklogById wStore1 99 = none ∧
     excludeWorklog wStore1 1 99 = (wStore1, Except.error ExclErr.worklogNotFound)) ∧
    excludeWorklog wStore1 1 10 = (wStore1, Except.error ExclErr.worklogNotFound) :=
  ⟨⟨by decide, (C10_unlink_error_precedence wStore0 1 2).1 (by decide)⟩,
   (C10_unlink_error_precedence wStoreC 1 99).2.1 wPayC (by decide) (by decide),
   ⟨by decide, (C10_unlink_error_precedence wStore1 1 99).2.2.1 wPay
     (by decide) (by decide) (by decide)⟩,
   (C10_unlink_error_precedence wStore1 1 10).2.2.2 wPay wEntA
     (by decide) (by decide) (by decide) (by decide)⟩
